import Mathlib

/-!
Verification of the MovieBot slice: the user preference model
(`moviebot/user_modeling/user_model.py`) and the neural dialogue policy's
feature-encoding pipeline
(`moviebot/dialogue_manager/dialogue_policy/neural_dialogue_policy.py`).

Python floats are embedded as rationals (ℚ): every value the modelled code
manipulates is a small integer, a sum of ±1 values, or a quotient thereof,
all exactly representable. Python dictionaries (insertion-ordered, unique
keys, values overwritten in place) are embedded as association lists with
insert-or-overwrite-first-occurrence update.
-/

set_option autoImplicit false

namespace MovieBot

/-- Modelled from the spec: the `DataBase` item store
(`moviebot.database.database.DataBase`) is not under src/. Per the spec's
external-interface section it exposes a query capability returning, for a
given slot name and a substring/tag pattern, the set of matching item
identifiers; `matching slot tag` is that set, as the list of movie ids the
SQL query `SELECT ID FROM table WHERE slot LIKE tag` yields. -/
structure DataBase where
  matching : String → String → List String

/-- State of `UserModel`: `_movies_choices` (a `defaultdict(list)` from movie
id to the ordered list of recorded choices) and `tag_preferences` (a nested
`defaultdict` keyed by slot then tag, flattened here to `(slot, tag)` keys). -/
structure UserModel where
  user_id : String
  movies_choices : List (String × List String)
  tag_preferences : List ((String × String) × ℚ)

/-- Association-list read of a movie's recorded choices; `[]` when the key is
absent (the list a `defaultdict(list)` would hand back). Used to state
theorems; the effectful accessor is `get_movie_choices`. -/
def lookup_choices : List (String × List String) → String → List String
  | [], _ => []
  | p :: rest, movie_id =>
    if p.1 = movie_id then p.2 else lookup_choices rest movie_id

/-- Pure view of one item's history on a `UserModel`. -/
def choices_of (m : UserModel) (movie_id : String) : List String :=
  lookup_choices m.movies_choices movie_id

/-- Whether a movie id is a key of the choices mapping. -/
def has_movie : List (String × List String) → String → Bool
  | [], _ => false
  | p :: rest, movie_id =>
    if p.1 = movie_id then true else has_movie rest movie_id

/-- Embeds `UserModel.update_movie_choice`:
`self._movies_choices[movie_id].append(choice)`. On a `defaultdict(list)`
this appends to the existing list when the key is present, and otherwise
inserts the key (at the end, by insertion order) with the one-element list. -/
def append_choice : List (String × List String) → String → String →
    List (String × List String)
  | [], movie_id, choice => [(movie_id, [choice])]
  | p :: rest, movie_id, choice =>
    if p.1 = movie_id then (p.1, p.2 ++ [choice]) :: rest
    else p :: append_choice rest movie_id choice

def update_movie_choice (m : UserModel) (movie_id choice : String) :
    UserModel :=
  { m with movies_choices := append_choice m.movies_choices movie_id choice }

/-- One step of Python `dict.update`: overwrite the value at an existing key
in place, else append the new key at the end. -/
def dict_insert : List (String × List String) → String → List String →
    List (String × List String)
  | [], k, v => [(k, v)]
  | p :: rest, k, v =>
    if p.1 = k then (p.1, v) :: rest else p :: dict_insert rest k v

/-- Embeds `UserModel.update_movies_choices`:
`self._movies_choices.update(movies_choices)` — Python `dict.update`,
overwriting each given key's value wholesale. -/
def update_movies_choices (m : UserModel)
    (new_choices : List (String × List String)) : UserModel :=
  { m with movies_choices :=
      new_choices.foldl (fun l p => dict_insert l p.1 p.2) m.movies_choices }

/-- Embeds `UserModel.get_movie_choices`:
`return self._movies_choices[movie_id]` — `defaultdict` item access, which
inserts the key with an empty list when absent. Returns the read value and
the (possibly mutated) model. -/
def get_movie_choices (m : UserModel) (movie_id : String) :
    List String × UserModel :=
  if has_movie m.movies_choices movie_id then
    (lookup_choices m.movies_choices movie_id, m)
  else
    ([], { m with movies_choices := m.movies_choices ++ [(movie_id, [])] })

/-- Embeds `UserModel._convert_choice_to_preference`. -/
def convert_choice_to_preference (choice : String) : ℚ :=
  if choice = "accept" then 1
  else if choice = "reject" ∨ choice = "dont_like" then -1
  else 0

/-- The inner loop of `compute_tag_preference`: starting from the running
`(preference, count_rated)` pair, do
`preference += _convert_choice_to_preference(choice); count_rated += 1`
for each recorded choice of one movie. -/
def accumulate_choices (acc : ℚ × Nat) (choices : List String) : ℚ × Nat :=
  choices.foldl
    (fun a choice => (a.1 + convert_choice_to_preference choice, a.2 + 1))
    acc

/-- Embeds `UserModel.compute_tag_preference`: fetch the ids matching the tag
from the database, then for every `(movie_id, choices)` entry whose id is in
that set accumulate `convert_choice_to_preference` over each choice while
counting the events; return the mean, or `0.0` when nothing was counted. -/
def compute_tag_preference (m : UserModel) (slot tag : String)
    (database : DataBase) : ℚ :=
  let tag_set := database.matching slot tag
  let r := m.movies_choices.foldl
    (fun acc mc => if mc.1 ∈ tag_set then accumulate_choices acc mc.2 else acc)
    ((0 : ℚ), (0 : Nat))
  if r.2 > 0 then r.1 / (r.2 : ℚ) else 0

/-- Lookup in the flattened tag-preference cache:
`self.tag_preferences[slot].get(tag, None)`. -/
def lookup_tag_pref : List ((String × String) × ℚ) → String → String →
    Option ℚ
  | [], _, _ => none
  | e :: rest, slot, tag =>
    if e.1.1 = slot ∧ e.1.2 = tag then some e.2
    else lookup_tag_pref rest slot tag

/-- The runtime error of the uncached `get_tag_preference` path. -/
inductive PyError where
  | typeErrorMissingDatabaseArg
  deriving DecidableEq

/-- Embeds `UserModel.get_tag_preference`. The cached path returns the stored
preference. The uncached path in the source is
`return self.compute_tag_preference(slot, tag)` — a call to a method whose
signature is `compute_tag_preference(self, slot, tag, database)`, so it
raises `TypeError` (missing required positional argument `database`) before
computing anything; that exception is embedded as `Except.error`. -/
def get_tag_preference (m : UserModel) (slot tag : String) :
    Except PyError ℚ :=
  match lookup_tag_pref m.tag_preferences slot tag with
  | some preference => Except.ok preference
  | none => Except.error PyError.typeErrorMissingDatabaseArg

/-- One step of `dict` assignment for the flattened tag-preference cache. -/
def insert_tag_pref : List ((String × String) × ℚ) → String → String → ℚ →
    List ((String × String) × ℚ)
  | [], slot, tag, pref => [((slot, tag), pref)]
  | e :: rest, slot, tag, pref =>
    if e.1.1 = slot ∧ e.1.2 = tag then (e.1, pref) :: rest
    else e :: insert_tag_pref rest slot tag pref

/-- Embeds `UserModel.set_tag_preference`:
`self.tag_preferences[slot][tag] = preference` — unconditional overwrite, no
validation of the value's range. -/
def set_tag_preference (m : UserModel) (slot tag : String) (preference : ℚ) :
    UserModel :=
  { m with tag_preferences :=
      insert_tag_pref m.tag_preferences slot tag preference }

/-- Modelled from the spec: `DialogueState`
(`moviebot.dialogue_manager.dialogue_state`) is not under src/. Per the
spec's data model it is a record of the eight boolean progress flags read by
`build_input_from_dialogue_state`, named here as in that method's body. -/
structure DialogueState where
  is_beginning : Bool
  agent_req_filled : Bool
  agent_can_lookup : Bool
  agent_made_partial_offer : Bool
  agent_should_make_offer : Bool
  agent_made_offer : Bool
  agent_offer_no_results : Bool
  at_terminal_state : Bool

/-- `torch.tensor([...], dtype=torch.float)` on a Python bool. -/
def bool_to_float (b : Bool) : ℚ :=
  if b then 1 else 0

/-- Modelled from the spec: the intent enumerations (`UserIntents`,
`AgentIntents`) and sklearn's `MultiLabelBinarizer` are not under src/. Per
the spec, a fitted encoder is a fixed, ordered vocabulary of labels
(`classes_`), and `transform` produces a multi-hot row of that length: a
position is 1 exactly when its label occurs in the input. The class-level
`user_label_encoder` / `agent_label_encoder` are values of this type. -/
structure LabelEncoder where
  classes : List String

/-- Multi-hot encoding of a label list against a fitted vocabulary
(`encoder.transform([labels])[0]`). -/
def LabelEncoder.transform (e : LabelEncoder) (labels : List String) :
    List ℚ :=
  e.classes.map (fun c => if c ∈ labels then 1 else 0)

/-- Embeds `NeuralDialoguePolicy.build_input_from_dialogue_state`: the tensor
of the eight dialogue-state flags, in the source's order. -/
def build_input_from_dialogue_state (ds : DialogueState) : List ℚ :=
  [bool_to_float ds.is_beginning,
   bool_to_float ds.agent_req_filled,
   bool_to_float ds.agent_can_lookup,
   bool_to_float ds.agent_made_partial_offer,
   bool_to_float ds.agent_should_make_offer,
   bool_to_float ds.agent_made_offer,
   bool_to_float ds.agent_offer_no_results,
   bool_to_float ds.at_terminal_state]

/-- One intent-list branch of
`build_input_from_dialogue_state_and_intents`: an empty intent list yields
`torch.zeros(len(encoder.classes_))`, a non-empty one the transform row. -/
def encode_intents (e : LabelEncoder) (intents : List String) : List ℚ :=
  if intents.length = 0 then List.replicate e.classes.length 0
  else e.transform intents

/-- Embeds `NeuralDialoguePolicy.build_input_from_dialogue_state_and_intents`:
concatenation of the state tensor, the user-intent encoding and the
agent-intent encoding. Intents are represented by their labels. -/
def build_input_from_dialogue_state_and_intents
    (user_label_encoder agent_label_encoder : LabelEncoder)
    (ds : DialogueState) (user_intents agent_intents : List String) :
    List ℚ :=
  build_input_from_dialogue_state ds
    ++ encode_intents user_label_encoder user_intents
    ++ encode_intents agent_label_encoder agent_intents

/-- Embeds `NeuralDialoguePolicy.build_input`: dispatch on the
`b_use_intents` keyword option. -/
def build_input (user_label_encoder agent_label_encoder : LabelEncoder)
    (b_use_intents : Bool) (ds : DialogueState)
    (user_intents agent_intents : List String) : List ℚ :=
  if b_use_intents then
    build_input_from_dialogue_state_and_intents
      user_label_encoder agent_label_encoder ds user_intents agent_intents
  else build_input_from_dialogue_state ds

/-- Embeds `NeuralDialoguePolicy.__init__`: stores the action catalog and the
three sizes. The body performs no validation of any parameter. Actions are
represented by strings. -/
structure NeuralDialoguePolicy where
  possible_actions : List String
  input_size : Nat
  hidden_size : Nat
  output_size : Nat

def neural_dialogue_policy_init (input_size hidden_size output_size : Nat)
    (possible_actions : List String) : NeuralDialoguePolicy :=
  { possible_actions := possible_actions,
    input_size := input_size,
    hidden_size := hidden_size,
    output_size := output_size }

/-- The eager construction-time validation the spec describes (refinement
reference: this definition follows the spec's words — output size must equal
the action catalog's length or construction fails immediately with a
configuration error — not the source, for comparison with
`neural_dialogue_policy_init`). -/
def neural_dialogue_policy_init_spec
    (input_size hidden_size output_size : Nat)
    (possible_actions : List String) :
    Except String NeuralDialoguePolicy :=
  if output_size = possible_actions.length then
    Except.ok
      (neural_dialogue_policy_init
        input_size hidden_size output_size possible_actions)
  else Except.error ("configuration error")

/-! ### Helper lemmas on the association-list operations -/

theorem lookup_append_choice_same (l : List (String × List String))
    (movie_id choice : String) :
    lookup_choices (append_choice l movie_id choice) movie_id
      = lookup_choices l movie_id ++ [choice] := by
  induction l with
  | nil => simp [append_choice, lookup_choices]
  | cons p rest ih =>
    by_cases h : p.1 = movie_id
    · simp [append_choice, lookup_choices, h]
    · simp [append_choice, lookup_choices, h, ih]

theorem lookup_append_choice_other (l : List (String × List String))
    (movie_id choice other : String) (h : other ≠ movie_id) :
    lookup_choices (append_choice l movie_id choice) other
      = lookup_choices l other := by
  induction l with
  | nil => simp [append_choice, lookup_choices, Ne.symm h]
  | cons p rest ih =>
    by_cases h1 : p.1 = movie_id
    · have h2 : ¬p.1 = other := by rw [h1]; exact fun hh => h hh.symm
      simp [append_choice, lookup_choices, h1, h2, Ne.symm h]
    · by_cases h2 : p.1 = other <;>
        simp [append_choice, lookup_choices, h1, h2, h, Ne.symm h, ih]

theorem lookup_dict_insert_same (l : List (String × List String))
    (k : String) (v : List String) :
    lookup_choices (dict_insert l k v) k = v := by
  induction l with
  | nil => simp [dict_insert, lookup_choices]
  | cons p rest ih =>
    by_cases h : p.1 = k
    · simp [dict_insert, lookup_choices, h]
    · simp [dict_insert, lookup_choices, h, ih]

theorem lookup_dict_insert_other (l : List (String × List String))
    (k : String) (v : List String) (other : String) (h : other ≠ k) :
    lookup_choices (dict_insert l k v) other = lookup_choices l other := by
  induction l with
  | nil => simp [dict_insert, lookup_choices, Ne.symm h]
  | cons p rest ih =>
    by_cases h1 : p.1 = k
    · have h2 : ¬p.1 = other := by rw [h1]; exact fun hh => h hh.symm
      simp [dict_insert, lookup_choices, h1, h2, Ne.symm h]
    · by_cases h2 : p.1 = other <;>
        simp [dict_insert, lookup_choices, h1, h2, h, Ne.symm h, ih]

theorem has_movie_append_self (l : List (String × List String))
    (k : String) (v : List String) :
    has_movie (l ++ [(k, v)]) k = true := by
  induction l with
  | nil => simp [has_movie]
  | cons p rest ih =>
    by_cases h : p.1 = k <;> simp [has_movie, h, ih]

theorem lookup_append_single_other (l : List (String × List String))
    (k : String) (v : List String) (other : String) (h : other ≠ k) :
    lookup_choices (l ++ [(k, v)]) other = lookup_choices l other := by
  induction l with
  | nil => simp [lookup_choices, Ne.symm h]
  | cons p rest ih =>
    by_cases h1 : p.1 = other <;> simp [lookup_choices, h1, ih]

/-! ### Helper lemmas on the preference computation -/

theorem foldl_tag_skip (ts : List String) (l : List (String × List String))
    (acc : ℚ × Nat)
    (h : ∀ mc ∈ l, mc.1 ∈ ts → mc.2 = ([] : List String)) :
    l.foldl (fun acc mc => if mc.1 ∈ ts then accumulate_choices acc mc.2
      else acc) acc = acc := by
  induction l generalizing acc with
  | nil => rfl
  | cons p rest ih =>
    have hrest : ∀ mc ∈ rest, mc.1 ∈ ts → mc.2 = ([] : List String) :=
      fun mc hm => h mc (List.mem_cons_of_mem _ hm)
    simp only [List.foldl_cons]
    by_cases hmem : p.1 ∈ ts
    · rw [if_pos hmem, h p (List.mem_cons_self _ _) hmem]
      exact ih _ hrest
    · rw [if_neg hmem]
      exact ih _ hrest

theorem convert_choice_bounds (choice : String) :
    -1 ≤ convert_choice_to_preference choice ∧
      convert_choice_to_preference choice ≤ 1 := by
  unfold convert_choice_to_preference
  split_ifs <;> norm_num

theorem accumulate_choices_bounds (choices : List String) (acc : ℚ × Nat)
    (h1 : -(acc.2 : ℚ) ≤ acc.1) (h2 : acc.1 ≤ (acc.2 : ℚ)) :
    -((accumulate_choices acc choices).2 : ℚ)
        ≤ (accumulate_choices acc choices).1 ∧
      (accumulate_choices acc choices).1
        ≤ ((accumulate_choices acc choices).2 : ℚ) := by
  induction choices generalizing acc with
  | nil => exact ⟨h1, h2⟩
  | cons c rest ih =>
    have hc := convert_choice_bounds c
    have e : accumulate_choices acc (c :: rest)
        = accumulate_choices
            (acc.1 + convert_choice_to_preference c, acc.2 + 1) rest := rfl
    rw [e]
    apply ih
    · show -(((acc.2 + 1 : Nat) : ℚ)) ≤ acc.1 + convert_choice_to_preference c
      push_cast
      linarith [hc.1]
    · show acc.1 + convert_choice_to_preference c ≤ ((acc.2 + 1 : Nat) : ℚ)
      push_cast
      linarith [hc.2]

theorem foldl_tag_bounds (ts : List String) (l : List (String × List String))
    (acc : ℚ × Nat)
    (h1 : -(acc.2 : ℚ) ≤ acc.1) (h2 : acc.1 ≤ (acc.2 : ℚ)) :
    -(((l.foldl (fun acc mc => if mc.1 ∈ ts then accumulate_choices acc mc.2
          else acc) acc).2 : ℚ))
        ≤ (l.foldl (fun acc mc => if mc.1 ∈ ts then accumulate_choices acc mc.2
          else acc) acc).1 ∧
      (l.foldl (fun acc mc => if mc.1 ∈ ts then accumulate_choices acc mc.2
          else acc) acc).1
        ≤ ((l.foldl (fun acc mc => if mc.1 ∈ ts then accumulate_choices acc mc.2
          else acc) acc).2 : ℚ) := by
  induction l generalizing acc with
  | nil => exact ⟨h1, h2⟩
  | cons p rest ih =>
    simp only [List.foldl_cons]
    by_cases hmem : p.1 ∈ ts
    · rw [if_pos hmem]
      have hb := accumulate_choices_bounds p.2 acc h1 h2
      exact ih _ hb.1 hb.2
    · rw [if_neg hmem]
      exact ih _ h1 h2

theorem compute_tag_preference_bounds (m : UserModel) (slot tag : String)
    (database : DataBase) :
    -1 ≤ compute_tag_preference m slot tag database ∧
      compute_tag_preference m slot tag database ≤ 1 := by
  have hb := foldl_tag_bounds (database.matching slot tag) m.movies_choices
    ((0 : ℚ), (0 : Nat)) (by norm_num) (by norm_num)
  set r := m.movies_choices.foldl
    (fun acc mc => if mc.1 ∈ database.matching slot tag then
      accumulate_choices acc mc.2 else acc) ((0 : ℚ), (0 : Nat)) with hr
  have hcomp : compute_tag_preference m slot tag database
      = if r.2 > 0 then r.1 / (r.2 : ℚ) else 0 := rfl
  rw [hcomp]
  by_cases hc : r.2 > 0
  · rw [if_pos hc]
    have hcq : (0 : ℚ) < (r.2 : ℚ) := by exact_mod_cast hc
    constructor
    · rw [le_div_iff₀ hcq]
      linarith [hb.1]
    · rw [div_le_one hcq]
      linarith [hb.2]
  · rw [if_neg hc]
    norm_num

theorem lookup_tag_pref_mem (prefs : List ((String × String) × ℚ))
    (slot tag : String) (v : ℚ)
    (h : lookup_tag_pref prefs slot tag = some v) :
    ∃ e ∈ prefs, e.2 = v := by
  induction prefs with
  | nil => cases h
  | cons e rest ih =>
    by_cases hc : e.1.1 = slot ∧ e.1.2 = tag
    · simp only [lookup_tag_pref, if_pos hc] at h
      exact ⟨e, List.mem_cons_self _ _, by injection h⟩
    · simp only [lookup_tag_pref, if_neg hc] at h
      obtain ⟨e', he', hv⟩ := ih h
      exact ⟨e', List.mem_cons_of_mem _ he', hv⟩

/-! ### Helper lemmas on the feature encoders -/

theorem encode_intents_length (e : LabelEncoder) (intents : List String) :
    (encode_intents e intents).length = e.classes.length := by
  unfold encode_intents
  split
  · simp
  · simp [LabelEncoder.transform]

theorem build_input_length (ue ae : LabelEncoder) (b : Bool)
    (ds : DialogueState) (ui ai : List String) :
    (build_input ue ae b ds ui ai).length
      = if b then 8 + ue.classes.length + ae.classes.length else 8 := by
  cases b <;>
    simp [build_input, build_input_from_dialogue_state_and_intents,
      build_input_from_dialogue_state, encode_intents_length]
  omega

/-! ### Claim theorems -/

/-- C1: `get_tag_preference` returns the explicitly cached preference for
`(slot, tag)` when one was set via `set_tag_preference`; but on the uncached
path the source calls `compute_tag_preference(slot, tag)` without the
required `database` argument, so instead of computing and returning the
preference it raises `TypeError`. Evaluated at the failing input (no cached
entry for slot "genres", tag "comedy") and at a cached one. -/
theorem C1_get_tag_preference_behavior :
    get_tag_preference
        { user_id := "u", movies_choices := [("m1", ["accept"])],
          tag_preferences := [] } "genres" "comedy"
      = Except.error PyError.typeErrorMissingDatabaseArg ∧
    get_tag_preference
        (set_tag_preference
          { user_id := "u", movies_choices := [("m1", ["accept"])],
            tag_preferences := [] } "genres" "comedy" (1 / 2))
        "genres" "comedy"
      = Except.ok (1 / 2) :=
  ⟨rfl, rfl⟩

/-- C2: for a user with choices {"m1": ["accept"], "m2": ["reject",
"reject"]} where both items match tag "comedy" on slot "genres",
`compute_tag_preference` returns (1.0 + -1.0 + -1.0) / 3 = -1/3, the
arithmetic mean of the converted preference over every recorded choice of
every matching item. -/
theorem C2_compute_tag_preference_example :
    compute_tag_preference
        { user_id := "u",
          movies_choices := [("m1", ["accept"]), ("m2", ["reject", "reject"])],
          tag_preferences := [] }
        "genres" "comedy"
        { matching := fun slot tag =>
            if slot = "genres" ∧ tag = "comedy" then ["m1", "m2"] else [] }
      = (1 + -1 + -1 : ℚ) / 3 ∧
    (1 + -1 + -1 : ℚ) / 3 = -(1 / 3) := by
  constructor
  · simp [compute_tag_preference, accumulate_choices,
      convert_choice_to_preference]
  · norm_num

/-- C3: `compute_tag_preference` returns exactly 0.0 — never dividing by
zero — whenever the set of items matching the tag is empty or no matching
item has any recorded choices. -/
theorem C3_compute_tag_preference_zero (m : UserModel) (slot tag : String)
    (database : DataBase)
    (h : database.matching slot tag = [] ∨
      ∀ mc ∈ m.movies_choices,
        mc.1 ∈ database.matching slot tag → mc.2 = ([] : List String)) :
    compute_tag_preference m slot tag database = 0 := by
  have h' : ∀ mc ∈ m.movies_choices,
      mc.1 ∈ database.matching slot tag → mc.2 = ([] : List String) := by
    rcases h with h | h
    · intro mc _ hmem
      rw [h] at hmem
      cases hmem
    · exact h
  have hfold := foldl_tag_skip (database.matching slot tag) m.movies_choices
    ((0 : ℚ), (0 : Nat)) h'
  set r := m.movies_choices.foldl
    (fun acc mc => if mc.1 ∈ database.matching slot tag then
      accumulate_choices acc mc.2 else acc) ((0 : ℚ), (0 : Nat)) with hr
  have hcomp : compute_tag_preference m slot tag database
      = if r.2 > 0 then r.1 / (r.2 : ℚ) else 0 := rfl
  rw [hcomp, hfold]
  norm_num

/-- C3 witness: a user with one rated movie that the store does not list
under the tag — the count of considered choice events is zero, and the
preference computed for the concrete model is 0. -/
theorem C3_witness :
    compute_tag_preference
        { user_id := "u", movies_choices := [("m1", ["accept"])],
          tag_preferences := [] }
        "genres" "comedy" { matching := fun _ _ => ["m9"] } = 0 :=
  C3_compute_tag_preference_zero _ _ _ _ (Or.inr (by decide))

/-- C4: for every intent list (user or agent vocabulary alike), the intent
encoding has length equal to the fitted vocabulary's size, and the empty
list encodes to the all-zero vector of that length — never an empty or
shorter vector. -/
theorem C4_encode_intents_shape (e : LabelEncoder) (intents : List String) :
    (encode_intents e intents).length = e.classes.length ∧
    encode_intents e [] = List.replicate e.classes.length 0 :=
  ⟨encode_intents_length e intents, rfl⟩

/-- C5: for every dialogue state, the state encoder returns a vector of
exactly 8 elements carrying, in this fixed order: beginning-of-dialogue,
required-slots-filled, lookup-feasible, partial-offer-made, should-offer,
offer-made, offer-exhausted, terminal-state. -/
theorem C5_encode_state_shape (ds : DialogueState) :
    (build_input_from_dialogue_state ds).length = 8 ∧
    (build_input_from_dialogue_state ds)[0]!
      = bool_to_float ds.is_beginning ∧
    (build_input_from_dialogue_state ds)[1]!
      = bool_to_float ds.agent_req_filled ∧
    (build_input_from_dialogue_state ds)[2]!
      = bool_to_float ds.agent_can_lookup ∧
    (build_input_from_dialogue_state ds)[3]!
      = bool_to_float ds.agent_made_partial_offer ∧
    (build_input_from_dialogue_state ds)[4]!
      = bool_to_float ds.agent_should_make_offer ∧
    (build_input_from_dialogue_state ds)[5]!
      = bool_to_float ds.agent_made_offer ∧
    (build_input_from_dialogue_state ds)[6]!
      = bool_to_float ds.agent_offer_no_results ∧
    (build_input_from_dialogue_state ds)[7]!
      = bool_to_float ds.at_terminal_state := by
  refine ⟨rfl, ?_, ?_, ?_, ?_, ?_, ?_, ?_, ?_⟩ <;>
    simp [build_input_from_dialogue_state]

/-- C6: for a fixed configuration (vocabularies and use-intents option),
`build_input` returns a vector of the same length for every dialogue state
and intent lists: 8 with the option off, 8 plus the user-vocabulary size
plus the agent-vocabulary size with it on. -/
theorem C6_build_input_length_constant (ue ae : LabelEncoder) (b : Bool)
    (ds ds' : DialogueState) (ui ui' ai ai' : List String) :
    (build_input ue ae b ds ui ai).length
        = (build_input ue ae b ds' ui' ai').length ∧
    (build_input ue ae b ds ui ai).length
        = if b then 8 + ue.classes.length + ae.classes.length else 8 := by
  rw [build_input_length, build_input_length]
  exact ⟨rfl, rfl⟩

/-- C7 counterexample refuting the claim as stated: `set_tag_preference`
performs no range validation, so after caching the out-of-range value 2 the
model hands back a preference outside [-1, 1]. -/
theorem C7_counterexample :
    get_tag_preference
        (set_tag_preference
          { user_id := "u", movies_choices := [], tag_preferences := [] }
          "genres" "comedy" 2)
        "genres" "comedy" = Except.ok 2 ∧
    ¬((2 : ℚ) ≤ 1) :=
  ⟨rfl, by norm_num⟩

/-- C7 (amended): `_convert_choice_to_preference` and
`compute_tag_preference` always return values in [-1, 1]; and
`get_tag_preference` returns a value in [-1, 1] whenever every cached entry
— the values stored by `set_tag_preference`, which itself validates nothing
— lies in [-1, 1]. -/
theorem C7_amended_preference_bounds :
    (∀ choice, -1 ≤ convert_choice_to_preference choice ∧
      convert_choice_to_preference choice ≤ 1) ∧
    (∀ (m : UserModel) (slot tag : String) (database : DataBase),
      -1 ≤ compute_tag_preference m slot tag database ∧
        compute_tag_preference m slot tag database ≤ 1) ∧
    (∀ (m : UserModel) (slot tag : String) (v : ℚ),
      (∀ e ∈ m.tag_preferences, -1 ≤ e.2 ∧ e.2 ≤ 1) →
      get_tag_preference m slot tag = Except.ok v →
      -1 ≤ v ∧ v ≤ 1) := by
  refine ⟨convert_choice_bounds, compute_tag_preference_bounds, ?_⟩
  intro m slot tag v hA hget
  cases hl : lookup_tag_pref m.tag_preferences slot tag with
  | none =>
    exfalso
    have herr : get_tag_preference m slot tag
        = Except.error PyError.typeErrorMissingDatabaseArg := by
      unfold get_tag_preference
      rw [hl]
    rw [herr] at hget
    cases hget
  | some p =>
    have hok : get_tag_preference m slot tag = Except.ok p := by
      unfold get_tag_preference
      rw [hl]
    rw [hok] at hget
    injection hget with hpv
    obtain ⟨e, he, hev⟩ := lookup_tag_pref_mem _ _ _ _ hl
    rw [← hpv, ← hev]
    exact hA e he

/-- C7 witness: the amended bound applied to a model whose one cached entry
is 1, read back at its cached (slot, tag). -/
theorem C7_amended_witness : -1 ≤ (1 : ℚ) ∧ (1 : ℚ) ≤ 1 :=
  C7_amended_preference_bounds.2.2
    { user_id := "u", movies_choices := [],
      tag_preferences := [(("genres", "comedy"), 1)] }
    "genres" "comedy" 1 (by decide) rfl

/-- C8 counterexample refuting append-only as stated: after recording
"accept" for m1, the bulk update with {"m1": ["reject"]} overwrites the
item's whole history — the previously recorded "accept" is gone. -/
theorem C8_counterexample :
    choices_of
        (update_movies_choices
          (update_movie_choice
            { user_id := "u", movies_choices := [], tag_preferences := [] }
            "m1" "accept")
          [("m1", ["reject"])])
        "m1" = ["reject"] ∧
    "accept" ∉ choices_of
        (update_movies_choices
          (update_movie_choice
            { user_id := "u", movies_choices := [], tag_preferences := [] }
            "m1" "accept")
          [("m1", ["reject"])])
        "m1" :=
  ⟨rfl, by decide⟩

/-- C8 (amended): `update_movie_choice` is append-only — an item's history
afterwards is its previous history with the new choice appended last, and
every other item is unchanged; but the bulk `update_movies_choices` follows
`dict.update` semantics — it replaces each given item's entire history with
the supplied list, removing that item's previously recorded choices, while
items not mentioned stay unchanged. -/
theorem C8_amended_choice_history :
    (∀ (m : UserModel) (movie_id choice : String),
      choices_of (update_movie_choice m movie_id choice) movie_id
        = choices_of m movie_id ++ [choice]) ∧
    (∀ (m : UserModel) (movie_id choice other : String), other ≠ movie_id →
      choices_of (update_movie_choice m movie_id choice) other
        = choices_of m other) ∧
    (∀ (m : UserModel) (k : String) (v : List String),
      choices_of (update_movies_choices m [(k, v)]) k = v) ∧
    (∀ (m : UserModel) (k : String) (v : List String) (other : String),
      other ≠ k →
      choices_of (update_movies_choices m [(k, v)]) other
        = choices_of m other) := by
  refine ⟨?_, ?_, ?_, ?_⟩
  · intro m movie_id choice
    exact lookup_append_choice_same m.movies_choices movie_id choice
  · intro m movie_id choice other h
    exact lookup_append_choice_other m.movies_choices movie_id choice other h
  · intro m k v
    exact lookup_dict_insert_same m.movies_choices k v
  · intro m k v other h
    exact lookup_dict_insert_other m.movies_choices k v other h

/-- C8 witness: the amended theorem applied at concrete inputs — the
unrelated item "m2" is untouched by either kind of update of "m1". -/
theorem C8_amended_witness :
    choices_of
        (update_movie_choice
          { user_id := "u", movies_choices := [("m2", ["watched"])],
            tag_preferences := [] } "m1" "reject") "m2"
      = choices_of
          { user_id := "u", movies_choices := [("m2", ["watched"])],
            tag_preferences := [] } "m2" ∧
    choices_of
        (update_movies_choices
          { user_id := "u", movies_choices := [("m2", ["watched"])],
            tag_preferences := [] } [("m1", ["accept"])]) "m2"
      = choices_of
          { user_id := "u", movies_choices := [("m2", ["watched"])],
            tag_preferences := [] } "m2" :=
  ⟨C8_amended_choice_history.2.1 _ "m1" "reject" "m2" (by decide),
   C8_amended_choice_history.2.2.2 _ "m1" ["accept"] "m2" (by decide)⟩

/-- C9 counterexample refuting eager validation: with output size 3 and a
one-action catalog, the source constructor succeeds and stores the
mismatched parameters, whereas the spec's eager check (the refinement
reference `neural_dialogue_policy_init_spec`) fails with a configuration
error. -/
theorem C9_counterexample :
    neural_dialogue_policy_init 16 64 3 ["a"]
      = { possible_actions := ["a"], input_size := 16, hidden_size := 64,
          output_size := 3 } ∧
    neural_dialogue_policy_init_spec 16 64 3 ["a"]
      = Except.error ("configuration error") ∧
    (3 : Nat) ≠ (["a"] : List String).length :=
  ⟨rfl, rfl, by decide⟩

/-- C9 (amended): construction performs no eager validation — even when the
output size differs from the action catalog's length, `__init__` succeeds
and stores all parameters unchanged, so any mismatch can only surface at
later use; only the spec-stated eager check rejects such a configuration. -/
theorem C9_amended_no_validation (input_size hidden_size output_size : Nat)
    (possible_actions : List String)
    (h : output_size ≠ possible_actions.length) :
    neural_dialogue_policy_init input_size hidden_size output_size
        possible_actions
      = { possible_actions := possible_actions, input_size := input_size,
          hidden_size := hidden_size, output_size := output_size } ∧
    neural_dialogue_policy_init_spec input_size hidden_size output_size
        possible_actions
      = Except.error ("configuration error") := by
  refine ⟨rfl, ?_⟩
  unfold neural_dialogue_policy_init_spec
  rw [if_neg h]

/-- C9 witness: the amended theorem applied at output size 2 against a
catalog of three actions. -/
theorem C9_amended_witness :
    neural_dialogue_policy_init 10 20 2 ["a", "b", "c"]
      = { possible_actions := ["a", "b", "c"], input_size := 10,
          hidden_size := 20, output_size := 2 } ∧
    neural_dialogue_policy_init_spec 10 20 2 ["a", "b", "c"]
      = Except.error ("configuration error") :=
  C9_amended_no_validation 10 20 2 ["a", "b", "c"] (by decide)

/-- C10: reading the history of an item with no recorded choices is not
side-effect-free — `get_movie_choices` on an absent movie id returns the
empty list but also inserts the id with an empty list into the underlying
choices mapping, leaving every other item's history unchanged. -/
theorem C10_get_movie_choices_autovivifies (m : UserModel)
    (movie_id : String)
    (h : has_movie m.movies_choices movie_id = false) :
    (get_movie_choices m movie_id).1 = [] ∧
    has_movie (get_movie_choices m movie_id).2.movies_choices movie_id
      = true ∧
    ∀ other, other ≠ movie_id →
      choices_of (get_movie_choices m movie_id).2 other
        = choices_of m other := by
  have hg : get_movie_choices m movie_id
      = ([], { m with
          movies_choices := m.movies_choices ++ [(movie_id, [])] }) := by
    unfold get_movie_choices
    simp [h]
  rw [hg]
  refine ⟨rfl, has_movie_append_self _ _ _, ?_⟩
  intro other ho
  exact lookup_append_single_other m.movies_choices movie_id [] other ho

/-- C10 witness: reading absent "m1" on a model that only knows "m2". -/
theorem C10_witness :
    (get_movie_choices
        { user_id := "u", movies_choices := [("m2", ["accept"])],
          tag_preferences := [] } "m1").1 = [] ∧
    has_movie
        (get_movie_choices
          { user_id := "u", movies_choices := [("m2", ["accept"])],
            tag_preferences := [] } "m1").2.movies_choices "m1" = true ∧
    choices_of
        (get_movie_choices
          { user_id := "u", movies_choices := [("m2", ["accept"])],
            tag_preferences := [] } "m1").2 "m2"
      = choices_of
          { user_id := "u", movies_choices := [("m2", ["accept"])],
            tag_preferences := [] } "m2" := by
  obtain ⟨h1, h2, h3⟩ := C10_get_movie_choices_autovivifies
    { user_id := "u", movies_choices := [("m2", ["accept"])],
      tag_preferences := [] } "m1" (by decide)
  exact ⟨h1, h2, h3 "m2" (by decide)⟩

end MovieBot
